import Mathlib

/-!
Shallow embedding of the IBM/powervs-scheduled-scaler serverless functions
(`src/pvs-scale-fn/__main__.py`, `src/pvs-scale-current-state-fn/__main__.py`,
`src/pvs-scale-current-fn/__main__.py`) and proofs of the specification
claims about them.

JSON values are modelled by the inductive `Json` below (numbers restricted to
integers, which covers every value the claims exercise; Python floats are out
of scope).  Python dictionaries are association lists with unique keys, and
Python truthiness is `pyTruthy`.
-/

namespace PvsScaler

/-- JSON values as produced by `json.loads` / consumed by `json.dumps`.
Numbers are modelled as integers. -/
inductive Json where
  | null
  | bool (b : Bool)
  | num (n : Int)
  | str (s : String)
  | arr (elems : List Json)
  | obj (fields : List (String × Json))

/-- A Python dictionary with string keys, as an association list
(keys are unique in a Python dict, lookup takes the first binding). -/
abbrev Dict := List (String × Json)

/-- Python `d.get(k)`: the value bound to `k`, or `None` when absent. -/
def pyGet (d : Dict) (k : String) : Json :=
  match d.find? (fun p => p.1 == k) with
  | some p => p.2
  | none => Json.null

/-- Python `d[k]`: the value bound to `k`, or a `KeyError` carrying the key. -/
def pyIndex (d : Dict) (k : String) : Except String Json :=
  match d.find? (fun p => p.1 == k) with
  | some p => Except.ok p.2
  | none => Except.error k

/-- Python truthiness of a JSON value: `None`, `False`, `0`, `""`, `[]` and
`{}` are falsy, everything else is truthy. -/
def pyTruthy : Json → Bool
  | Json.null => false
  | Json.bool b => b
  | Json.num n => !(n == 0)
  | Json.str s => !(s == "")
  | Json.arr l => !l.isEmpty
  | Json.obj l => !l.isEmpty

/-- Escaping of one character inside a JSON string literal, as done by
Python `json.dumps` (the characters that occur in this code base; control
characters other than the three below and non-ASCII escapes are not
exercised by any claim). -/
def pyEscapeChar (c : Char) : String :=
  if c == '"' then "\\\""
  else if c == '\\' then "\\\\"
  else if c == '\n' then "\\n"
  else if c == '\t' then "\\t"
  else if c == '\r' then "\\r"
  else String.singleton c

/-- Escaping of a JSON string body for `json.dumps`. -/
def pyEscape (s : String) : String :=
  String.join (s.data.map pyEscapeChar)

mutual

/-- Python `json.dumps` with its default separators `", "` and `": "`
(insertion order of dict keys is preserved). -/
def pyDumps : Json → String
  | Json.null => "null"
  | Json.bool true => "true"
  | Json.bool false => "false"
  | Json.num n => toString n
  | Json.str s => "\"" ++ pyEscape s ++ "\""
  | Json.arr l => "[" ++ pyDumpsList l ++ "]"
  | Json.obj l => "\x7b" ++ pyDumpsFields l ++ "\x7d"

/-- Comma-separated rendering of array elements. -/
def pyDumpsList : List Json → String
  | [] => ""
  | [x] => pyDumps x
  | x :: y :: xs => pyDumps x ++ ", " ++ pyDumpsList (y :: xs)

/-- Comma-separated rendering of object fields. -/
def pyDumpsFields : List (String × Json) → String
  | [] => ""
  | [p] => "\"" ++ pyEscape p.1 ++ "\": " ++ pyDumps p.2
  | p :: q :: ps => "\"" ++ pyEscape p.1 ++ "\": " ++ pyDumps p.2 ++ ", " ++ pyDumpsFields (q :: ps)

end

/-! ## The response envelope (`get_json_error` / `return_json_body`)

All three functions return a dict `\x7bheaders, statusCode, body\x7d`; the body is
either `\x7berror, message\x7d` or `\x7breturn: payload\x7d`.  `EnvBody.err t m`
stands for the body `\x7b"error": t, "message": m\x7d` and `EnvBody.ret p` for
`\x7b"return": p\x7d`. -/

/-- The `body` field of the response dict. -/
inductive EnvBody where
  | err (title : String) (message : String)
  | ret (payload : List Json)

/-- The response dict built by `get_json_error` and `return_json_body`:
headers, status code and body. -/
structure Envelope where
  headers : List (String × String)
  statusCode : Nat
  body : EnvBody

/-- The constant headers dict of every envelope. -/
def jsonHeaders : List (String × String) := [("Content-Type", "application/json")]

/-- `get_json_error(status, title, message)` from `src/pvs-scale-fn/__main__.py`
lines 68-93 (identical shape in the other two files). -/
def get_json_error (status : Nat) (title : String) (message : String) : Envelope :=
  { headers := jsonHeaders, statusCode := status, body := EnvBody.err title message }

/-- `return_json_body(body, code)` from `src/pvs-scale-fn/__main__.py`
lines 95-116: a success envelope whose body is `\x7b"return": payload\x7d`. -/
def return_json_body (payload : List Json) (code : Nat) : Envelope :=
  { headers := jsonHeaders, statusCode := code, body := EnvBody.ret payload }

/-! ## The apply workflow (`main` of `src/pvs-scale-fn/__main__.py`)

The loop over the parsed configuration (lines 165-204) is embedded below.
The preamble of `main` (environment variables, IAM token, region resolution,
CRN extraction, configuration parsing, lines 124-163) is assumed to have
succeeded: the model takes the parsed configuration — a list of records,
each a dict — directly, which is exactly the state of `main` at line 166.

A network interaction is a value of `CallResult`: either a raised
`requests.RequestException` carrying `str(e)`, or a response with a status
code, its `.text`, and the result of `.json(strict=False)` (`none` when the
body is not JSON, raising `JSONDecodeError` in the source).

The responses are supplied by an environment `env : Nat → CallResult` giving
the result of the n-th issued PUT (counting from 0): the loop is
deterministic given `env`.  Besides the envelope, the model returns the list
of request bodies passed to `requests.put` in order, so that theorems can
speak about how many network calls were attempted and with which body.

Line 187 passes `json=json.dumps(body)`: the argument handed to the `json=`
parameter of `requests.put` is the *string* produced by `json.dumps`, which
`requests` then serializes again — the wire body is `Json.str (pyDumps body)`,
not the object `body` itself.

Two paths of the loop leave it early, both modelled faithfully to what the
interpreter does rather than to what the source text suggests:
* lines 193-194: on a `JSONDecodeError` for a success-range response the
  source runs `return get_json_error(e.status_code, "error", "no JSON in response")`,
  but `JSONDecodeError` has no attribute `status_code`, so evaluating
  `e.status_code` raises `AttributeError`, which the handler at lines 206-208
  catches, returning `get_json_error(500, "InternalError", str(e))`;
* line 191: when the decoded body is JSON but not a dict, `result.get`
  raises `AttributeError`, caught by the same handler.
The `str(e)` texts of those two `AttributeError`s are modelled by the two
constants below (their exact wording is interpreter detail; no claim
inspects them). -/

/-- The result of one `requests.put` call: a raised `RequestException`
carrying `str(e)`, or a response with status code, `.text`, and the decoded
JSON body (`none` when `.json(strict=False)` raises `JSONDecodeError`). -/
inductive CallResult where
  | exn (msg : String)
  | resp (status : Nat) (text : String) (body : Option Json)

/-- Modelled `str(e)` of the `AttributeError` raised by `e.status_code` at
line 194 of `src/pvs-scale-fn/__main__.py`. -/
def attrErrStatusCode : String :=
  "'JSONDecodeError' object has no attribute 'status_code'"

/-- Modelled `str(e)` of the `AttributeError` raised by `result.get` at
line 191 when the decoded response body is not a dict. -/
def attrErrResultGet : String :=
  "object has no attribute 'get'"

/-- The outcome appended at lines 172-178 for a record whose `instance_id`,
`cpu` or `ram` is falsy: a flat dict with the fields `instance_id`
(`pvm_instance_id or "unknown"`), `message` and `code` 400. -/
def missingOutcome (inst : Dict) : Json :=
  Json.obj [("instance_id",
              if pyTruthy (pyGet inst "instance_id") then pyGet inst "instance_id"
              else Json.str "unknown"),
            ("message", Json.str "Missing instance_id, cpu, or ram"),
            ("code", Json.num 400)]

/-- The dict key under which a non-400 outcome is stored: `pvm_instance_id`
is used as the key of a one-entry dict.  In every claim it is a string; a
non-string key (possible in Python, where any hashable value may key a
dict) is rendered by its JSON text. -/
def jsonKey : Json → String
  | Json.str s => s
  | j => pyDumps j

/-- An outcome of the shape `\x7bpvm_instance_id: \x7b"message": m, "code": c\x7d\x7d`
(lines 192, 197, 200-202). -/
def keyedOutcome (pid : Json) (message : Json) (code : Int) : Json :=
  Json.obj [(jsonKey pid, Json.obj [("message", message), ("code", Json.num code)])]

/-- The `json.dumps` string handed to the `json=` parameter of
`requests.put` for a record (lines 185-187): the serialized
`\x7b"processors": cpu, "memory": ram\x7d`. -/
def putBodyArg (cpu ram : Json) : Json :=
  Json.str (pyDumps (Json.obj [("processors", cpu), ("memory", ram)]))

/-- `result.get("message", "Scaled successfully")` at line 191, given the
fields of the decoded dict. -/
def responseMessage (fields : List (String × Json)) : Json :=
  match fields.find? (fun p => p.1 == "message") with
  | some p => p.2
  | none => Json.str "Scaled successfully"

/-- The loop of `main` (lines 167-204 of `src/pvs-scale-fn/__main__.py`).
`sent` accumulates the bodies passed to `requests.put` (so `sent.length`
indexes `env` at the next call) and `out` accumulates `output`.  Returns the
envelope `main` returns together with the final list of sent bodies. -/
def applyGo (env : Nat → CallResult) : List Dict → List Json → List Json → Envelope × List Json
  | [], sent, out => (return_json_body out 200, sent)
  | inst :: rest, sent, out =>
    let pid := pyGet inst "instance_id"
    let cpu := pyGet inst "cpu"
    let ram := pyGet inst "ram"
    if !(pyTruthy pid && pyTruthy cpu && pyTruthy ram) then
      applyGo env rest sent (out ++ [missingOutcome inst])
    else
      let wire := putBodyArg cpu ram
      match env sent.length with
      | CallResult.exn m =>
          applyGo env rest (sent ++ [wire]) (out ++ [keyedOutcome pid (Json.str m) 500])
      | CallResult.resp st text bd =>
          if 200 ≤ st ∧ st ≤ 204 then
            match bd with
            | none =>
                (get_json_error 500 "InternalError" attrErrStatusCode, sent ++ [wire])
            | some (Json.obj fields) =>
                applyGo env rest (sent ++ [wire])
                  (out ++ [keyedOutcome pid (responseMessage fields) (Int.ofNat st)])
            | some _ =>
                (get_json_error 500 "InternalError" attrErrResultGet, sent ++ [wire])
          else
            applyGo env rest (sent ++ [wire])
              (out ++ [keyedOutcome pid (Json.str text) (Int.ofNat st)])

/-- The apply workflow from line 166 of `main` on: loop over the parsed
configuration with empty accumulators. -/
def mainApply (env : Nat → CallResult) (config : List Dict) : Envelope × List Json :=
  applyGo env config [] []

/-! ## The pagination drainers (`get_paged_results`)

A pager exposes `has_next` and `get_next`; `get_next` returns the next
page's item list or `None`, moving the pager forward.  The two source files
implement `get_paged_results` differently:

* `src/pvs-scale-current-state-fn/__main__.py` lines 160-170 guard the
  degenerate page: `if not next_page: logger.warning(...); break`, and the
  whole loop sits in a `try/except` that returns the results collected so
  far, so this drainer never raises;
* `src/pvs-scale-current-fn/__main__.py` lines 150-155 instead run
  `assert next_page is not None` (an `AssertionError` for an absent page,
  documented in its own docstring) and extend with an empty page without
  breaking, so a pager that keeps `has_next` true while returning empty
  pages is never left.

Both loops are `while` loops, embedded with explicit fuel; in the
`current-fn` model running out of fuel yields `none`, the marker for a loop
that has not terminated within the given bound. -/

/-- A paginated source: `has_next` and `get_next` over a pager state. -/
structure Pager (σ : Type u) (α : Type v) where
  hasNext : σ → Bool
  getNext : σ → Option (List α) × σ

/-- `get_paged_results` of `src/pvs-scale-current-state-fn/__main__.py`
(lines 160-170): break on an empty or absent page; exceptions cannot escape
(the `try/except` returns the collected results), so the result is a plain
list. -/
def get_paged_results_state (p : Pager σ α) : Nat → σ → List α
  | 0, _ => []
  | fuel + 1, s =>
    if p.hasNext s then
      match p.getNext s with
      | (none, _) => []
      | (some [], _) => []
      | (some (x :: xs), s2) => (x :: xs) ++ get_paged_results_state p fuel s2
    else []

/-- `get_paged_results` of `src/pvs-scale-current-fn/__main__.py`
(lines 150-155): `assert next_page is not None` raises (modelled as
`Except.error ()`) on an absent page, and an empty page extends nothing but
does not break.  `none` means the loop has not finished within `fuel`
iterations. -/
def get_paged_results_current (p : Pager σ α) : Nat → σ → Option (Except Unit (List α))
  | 0, _ => none
  | fuel + 1, s =>
    if p.hasNext s then
      match p.getNext s with
      | (none, _) => some (Except.error ())
      | (some page, s2) =>
        match get_paged_results_current p fuel s2 with
        | none => none
        | some (Except.error e) => some (Except.error e)
        | some (Except.ok rest) => some (Except.ok (page ++ rest))
    else some (Except.ok [])

/-! ## The fetch-and-publish projection (`get_current_status`)

`src/pvs-scale-current-state-fn/__main__.py` lines 269-278 project with a
comprehension filtered by `if inst.get("pvmInstanceID")` and field access
via `.get` (absent fields become `None`);
`src/pvs-scale-current-fn/__main__.py` lines 220-228 project every entry
with bracket access `instance["pvmInstanceID"]` etc., so an entry missing a
field raises `KeyError` (modelled as `Except.error` carrying the key),
aborting the whole comprehension. -/

/-- One projected `ResourceRecord` in the `current-state-fn` variant
(fields via `.get`). -/
def projectRecordState (inst : Dict) : Json :=
  Json.obj [("instance_id", pyGet inst "pvmInstanceID"),
            ("instance_name", pyGet inst "serverName"),
            ("cpu", pyGet inst "processors"),
            ("ram", pyGet inst "memory")]

/-- The projection comprehension of `src/pvs-scale-current-state-fn/__main__.py`
lines 269-278: keep the entries whose `pvmInstanceID` is truthy, project each. -/
def projectionState (entries : List Dict) : List Json :=
  (entries.filter (fun inst => pyTruthy (pyGet inst "pvmInstanceID"))).map projectRecordState

/-- One projected record in the `current-fn` variant (fields via bracket
access, `KeyError` on a missing key). -/
def projectRecordCurrent (inst : Dict) : Except String Json := do
  let pid ← pyIndex inst "pvmInstanceID"
  let name ← pyIndex inst "serverName"
  let cpu ← pyIndex inst "processors"
  let ram ← pyIndex inst "memory"
  pure (Json.obj [("instance_id", pid), ("instance_name", name), ("cpu", cpu), ("ram", ram)])

/-- The projection comprehension of `src/pvs-scale-current-fn/__main__.py`
lines 220-228: project the entries in order, the first `KeyError` aborts
the batch. -/
def projectionCurrent : List Dict → Except String (List Json)
  | [] => Except.ok []
  | inst :: rest => do
    let r ← projectRecordCurrent inst
    let rs ← projectionCurrent rest
    pure (r :: rs)

/-! ## The publish step of `get_current_status`

Lines 281-299 of `src/pvs-scale-current-state-fn/__main__.py` (and lines
232-245 of `src/pvs-scale-current-fn/__main__.py`, identical up to how
existence is tested: `next(...)` vs `any(...)`).  The drained config-map
list and the dict returned by `get_config_map(...).get_result()` are inputs;
the document-store calls the code performs are returned as an ordered
trace. -/

/-- A call against the document store. -/
inductive StoreOp where
  | get (name : String)
  | create (name : String) (data : List (String × String))
  | replace (name : String) (ifMatch : Json) (data : List (String × String))

/-- Whether a store operation is a conditional replace. -/
def isReplaceOp : StoreOp → Bool
  | StoreOp.replace _ _ _ => true
  | _ => false

/-- Python `m.get("name") == "pvs-scale-up-config"` for one drained
config-map dict (equality with a string is `False` for any non-string
value). -/
def isScaleUpName (m : Dict) : Bool :=
  match pyGet m "name" with
  | Json.str s => s == "pvs-scale-up-config"
  | _ => false

/-- The publish step (lines 281-299): when a drained config map named
`pvs-scale-up-config` exists (a dict matching the name is necessarily
non-empty, hence truthy at `if existing:`), get it, read `entity_tag` from
the fetched result, and replace with that tag; otherwise create.  `fetched`
is the dict `get_config_map(...).get_result()` returns. -/
def publishConfigMap (allConfigMaps : List Dict) (fetched : Dict) (payload : String) :
    List StoreOp :=
  if (allConfigMaps.find? isScaleUpName).isSome then
    [StoreOp.get "pvs-scale-up-config",
     StoreOp.replace "pvs-scale-up-config" (pyGet fetched "entity_tag")
       [("pvs_scale_config", payload)]]
  else
    [StoreOp.create "pvs-scale-up-config" [("pvs_scale_config", payload)]]

/-! ## CRN identifier extraction (`get_service_instance_from_crn`)

Lines 48-66 of `src/pvs-scale-fn/__main__.py` (the same function, with a
slightly different `ValueError` text, at lines 75-94 of
`src/pvs-scale-current-state-fn/__main__.py` and lines 58-76 of
`src/pvs-scale-current-fn/__main__.py`): an empty CRN raises `ValueError`,
otherwise `re.search` with the pattern
`[0-9a-f]{8}-[0-9a-f]{4}-[0-9a-f]{4}-[0-9a-f]{4}-[0-9a-f]{12}` and
`re.IGNORECASE` returns the leftmost UUID-shaped substring, or `None`. -/

/-- A hexadecimal digit as matched by `[0-9a-f]` under `re.IGNORECASE`. -/
def isHexDigitCI (c : Char) : Bool :=
  ('0' ≤ c && c ≤ '9') || ('a' ≤ c && c ≤ 'f') || ('A' ≤ c && c ≤ 'F')

/-- Consume exactly `n` hexadecimal digits, returning the rest. -/
def hexRun : Nat → List Char → Option (List Char)
  | 0, cs => some cs
  | _ + 1, [] => none
  | n + 1, c :: cs => if isHexDigitCI c then hexRun n cs else none

/-- Consume one dash. -/
def expectDash : List Char → Option (List Char)
  | c :: cs => if c == '-' then some cs else none
  | [] => none

/-- Match the 8-4-4-4-12 UUID shape at the head, returning what follows. -/
def uuidTail (cs : List Char) : Option (List Char) :=
  ((((((((hexRun 8 cs).bind expectDash).bind (hexRun 4)).bind expectDash).bind
    (hexRun 4)).bind expectDash).bind (hexRun 4)).bind expectDash).bind (hexRun 12)

/-- Whether the UUID pattern matches at the head of `cs`. -/
def uuidAt (cs : List Char) : Bool :=
  (uuidTail cs).isSome

/-- `re.search`: try each start position left to right; on the first
position where the pattern matches, return the matched text — the UUID
shape has fixed width 36. -/
def searchUUID : List Char → Option (List Char)
  | [] => none
  | c :: cs => if uuidAt (c :: cs) then some ((c :: cs).take 36) else searchUUID cs

/-- `get_service_instance_from_crn` of `src/pvs-scale-fn/__main__.py`
lines 48-66: `ValueError('The CRN is required')` on a falsy (empty) CRN,
else the leftmost UUID-shaped substring or `None`. -/
def get_service_instance_from_crn (crn : String) : Except String (Option String) :=
  if crn.isEmpty then Except.error "The CRN is required"
  else Except.ok ((searchUUID crn.data).map (fun l => String.mk l))

/-! ## Shape predicates on outcomes and call results -/

/-- Whether a JSON value is a string. -/
def isStrB : Json → Bool
  | Json.str _ => true
  | _ => false

/-- Whether a JSON value is an object. -/
def isObjB : Json → Bool
  | Json.obj _ => true
  | _ => false

/-- An outcome keyed by some identifier: a one-entry object whose value is
an object with exactly the fields `message` and `code`. -/
def isKeyedAnyB : Json → Bool
  | Json.obj [(_, Json.obj [("message", _), ("code", _)])] => true
  | _ => false

/-- An outcome keyed by the given record identifier. -/
def isKeyedOutcomeForB (pid : Json) : Json → Bool
  | Json.obj [(k, Json.obj [("message", _), ("code", _)])] => k == jsonKey pid
  | _ => false

/-- The flat code-400 outcome shape appended for a record with a falsy
field: fields `instance_id`, `message` and `code` at top level. -/
def isFlat400B : Json → Bool
  | Json.obj [("instance_id", _), ("message", Json.str m), ("code", Json.num c)] =>
      m == "Missing instance_id, cpu, or ram" && c == 400
  | _ => false

/-- A call result that does not make the loop abort: anything except a
success-range (200-204) response whose decoded body is missing (not JSON)
or not a dict. -/
def benignResult : CallResult → Bool
  | CallResult.exn _ => true
  | CallResult.resp st _ bd =>
    if 200 ≤ st ∧ st ≤ 204 then
      match bd with
      | some (Json.obj _) => true
      | _ => false
    else true

/-- Whether an `Except` result is a success. -/
def exceptOkB : Except ε α → Bool
  | Except.ok _ => true
  | Except.error _ => false

/-! ## Concrete fixtures used by the closed theorems -/

/-- A record with all three fields present and truthy. -/
def recAbc : Dict := [("instance_id", Json.str "abc"), ("cpu", Json.num 2), ("ram", Json.num 8)]

/-- Another complete record. -/
def recA1 : Dict := [("instance_id", Json.str "a1"), ("cpu", Json.num 1), ("ram", Json.num 2)]

/-- A third complete record. -/
def recA2 : Dict := [("instance_id", Json.str "a2"), ("cpu", Json.num 3), ("ram", Json.num 4)]

/-- A record with `ram` missing. -/
def recMissingRam : Dict := [("instance_id", Json.str "m2"), ("cpu", Json.num 5)]

/-- A record with only `instance_id`. -/
def recOnlyId : Dict := [("instance_id", Json.str "x")]

/-- A record whose `cpu` is present but zero. -/
def recZeroCpu : Dict := [("instance_id", Json.str "z"), ("cpu", Json.num 0), ("ram", Json.num 4)]

/-- An environment where every call raises `RequestException`. -/
def envExn : Nat → CallResult := fun _ => CallResult.exn "boom"

/-- An environment where every call returns 200 with body `\x7b\x7d`. -/
def envOkEmptyObj : Nat → CallResult := fun _ => CallResult.resp 200 "" (some (Json.obj []))

/-- An environment where every call returns 200 with an undecodable body. -/
def envNoJson200 : Nat → CallResult := fun _ => CallResult.resp 200 "not json" none

/-- An environment where every call returns 204 with an undecodable body. -/
def envNoJson204 : Nat → CallResult := fun _ => CallResult.resp 204 "" none

/-- A pager that always reports more pages and always returns an absent
page. -/
def pagerNone : Pager Unit Nat :=
  { hasNext := fun _ => true, getNext := fun s => (none, s) }

/-- A pager that always reports more pages and always returns an empty
page. -/
def pagerEmpty : Pager Unit Nat :=
  { hasNext := fun _ => true, getNext := fun s => (some [], s) }

/-- A pager that yields the pages `[1, 2]` and `[3]`, then keeps reporting
more pages while returning empty ones. -/
def pagerStuck : Pager Nat Nat :=
  { hasNext := fun _ => true,
    getNext := fun s => (if s == 0 then some [1, 2] else if s == 1 then some [3] else some [],
                         s + 1) }

/-- The listing entry of the end-to-end example. -/
def entryAbc : Dict :=
  [("pvmInstanceID", Json.str "abc"), ("serverName", Json.str "n1"),
   ("processors", Json.num 2), ("memory", Json.num 8)]

/-- The projected record of the end-to-end example. -/
def recordAbc : Json :=
  Json.obj [("instance_id", Json.str "abc"), ("instance_name", Json.str "n1"),
            ("cpu", Json.num 2), ("ram", Json.num 8)]

/-- A listing entry with no `pvmInstanceID`. -/
def entryNoId : Dict :=
  [("serverName", Json.str "n1"), ("processors", Json.num 2), ("memory", Json.num 8)]

/-! ## Declarative specification of the regex search -/

/-- What `re.search` must return on `cs`: for `some u`, there is a start
position `i` where the UUID pattern matches, `u` is the 36-character match
there, and no earlier position matches; for `none`, no position matches. -/
def searchSpec (cs : List Char) : Option (List Char) → Prop
  | some u => ∃ i, uuidAt (cs.drop i) = true ∧ u = (cs.drop i).take 36 ∧
      ∀ j, j < i → uuidAt (cs.drop j) = false
  | none => ∀ i, uuidAt (cs.drop i) = false

/-- The same specification over the input string and the returned
`Option String`. -/
def crnResultSpec (s : String) : Option String → Prop
  | some u => ∃ i, uuidAt (s.data.drop i) = true ∧
      u = String.mk ((s.data.drop i).take 36) ∧
      ∀ j, j < i → uuidAt (s.data.drop j) = false
  | none => ∀ i, uuidAt (s.data.drop i) = false

/-! ## Step lemmas for the apply loop -/

theorem missingOutcome_flat (inst : Dict) : isFlat400B (missingOutcome inst) = true := by
  unfold missingOutcome
  split <;> rfl

theorem keyedOutcome_any (pid message : Json) (code : Int) :
    isKeyedAnyB (keyedOutcome pid message code) = true := rfl

theorem keyedOutcome_for (pid message : Json) (code : Int) :
    isKeyedOutcomeForB pid (keyedOutcome pid message code) = true := by
  simp [keyedOutcome, isKeyedOutcomeForB]

/-- A record with a falsy `instance_id`, `cpu` or `ram` appends the flat
400 outcome, issues no call (`sent` unchanged) and continues with the next
record. -/
theorem applyGo_cons_invalid (env : Nat → CallResult) (inst : Dict) (rest : List Dict)
    (sent out : List Json)
    (h : (pyTruthy (pyGet inst "instance_id") && pyTruthy (pyGet inst "cpu") &&
          pyTruthy (pyGet inst "ram")) = false) :
    applyGo env (inst :: rest) sent out = applyGo env rest sent (out ++ [missingOutcome inst]) := by
  simp [applyGo, h]

/-- A record with all three fields truthy whose call result is benign
appends one outcome keyed by its `instance_id`, records the sent body, and
continues with the next record. -/
theorem applyGo_cons_valid (env : Nat → CallResult) (inst : Dict) (rest : List Dict)
    (sent out : List Json)
    (hv : (pyTruthy (pyGet inst "instance_id") && pyTruthy (pyGet inst "cpu") &&
          pyTruthy (pyGet inst "ram")) = true)
    (hb : benignResult (env sent.length) = true) :
    ∃ o, isKeyedOutcomeForB (pyGet inst "instance_id") o = true ∧
      applyGo env (inst :: rest) sent out =
        applyGo env rest (sent ++ [putBodyArg (pyGet inst "cpu") (pyGet inst "ram")])
          (out ++ [o]) := by
  cases hc : env sent.length with
  | exn m =>
      refine ⟨keyedOutcome (pyGet inst "instance_id") (Json.str m) 500,
        keyedOutcome_for _ _ _, ?_⟩
      simp [applyGo, hv, hc]
  | resp st text bd =>
      by_cases hst : 200 ≤ st ∧ st ≤ 204
      · rw [hc] at hb
        rw [benignResult.eq_def] at hb
        simp only [if_pos hst] at hb
        match bd, hb with
        | some (Json.obj fields), _ =>
          refine ⟨keyedOutcome (pyGet inst "instance_id") (responseMessage fields)
            (Int.ofNat st), keyedOutcome_for _ _ _, ?_⟩
          simp [applyGo, hv, hc, hst]
      · refine ⟨keyedOutcome (pyGet inst "instance_id") (Json.str text) (Int.ofNat st),
          keyedOutcome_for _ _ _, ?_⟩
        simp [applyGo, hv, hc, hst]

/-- Every outcome entry in a returned success payload is either keyed by
some identifier or of the flat 400 shape (invariant of the loop,
generalized over the accumulators). -/
theorem applyGo_shapes_aux (env : Nat → CallResult) :
    ∀ (config : List Dict) (sent out res : List Json),
      (∀ j ∈ out, (isKeyedAnyB j || isFlat400B j) = true) →
      (applyGo env config sent out).1.body = EnvBody.ret res →
      ∀ j ∈ res, (isKeyedAnyB j || isFlat400B j) = true := by
  intro config
  induction config with
  | nil =>
    intro sent out res hout h j hj
    have hout_res : out = res := by
      simpa [applyGo, return_json_body] using h
    exact hout j (hout_res ▸ hj)
  | cons inst rest ih =>
    intro sent out res hout h j hj
    have hext : ∀ (o : Json), (isKeyedAnyB o || isFlat400B o) = true →
        ∀ x ∈ out ++ [o], (isKeyedAnyB x || isFlat400B x) = true := by
      intro o ho x hx
      rcases List.mem_append.1 hx with hx | hx
      · exact hout x hx
      · rw [List.mem_singleton.1 hx]; exact ho
    rw [applyGo] at h
    dsimp only at h
    split at h
    · exact ih sent _ res (hext _ (by simp [missingOutcome_flat])) h j hj
    · split at h
      · exact ih _ _ res (hext _ (by simp [keyedOutcome_any])) h j hj
      · split at h
        · split at h
          · simp [get_json_error] at h
          · exact ih _ _ res (hext _ (by simp [keyedOutcome_any])) h j hj
          · simp [get_json_error] at h
        · exact ih _ _ res (hext _ (by simp [keyedOutcome_any])) h j hj

/-- `searchUUID` implements `re.search` for the fixed UUID pattern: it
returns the match at the least position where the pattern matches, or
`none` when no position matches. -/
theorem searchUUID_correct : ∀ cs : List Char, searchSpec cs (searchUUID cs) := by
  intro cs
  induction cs with
  | nil =>
    show searchSpec [] none
    intro i
    simp [List.drop_nil]
    rfl
  | cons c cs ih =>
    by_cases h : uuidAt (c :: cs) = true
    · rw [searchUUID, if_pos h]
      exact ⟨0, h, rfl, fun j hj => absurd hj (Nat.not_lt_zero j)⟩
    · have hfalse : uuidAt (c :: cs) = false := by
        simpa using h
      rw [searchUUID, if_neg h]
      cases hs : searchUUID cs with
      | some u =>
        rw [hs] at ih
        obtain ⟨i, h1, h2, h3⟩ := ih
        refine ⟨i + 1, ?_, ?_, ?_⟩
        · simpa [List.drop_succ_cons] using h1
        · simpa [List.drop_succ_cons] using h2
        · intro j hj
          cases j with
          | zero => simpa using hfalse
          | succ k =>
            have hk : k < i := Nat.lt_of_succ_lt_succ hj
            simpa [List.drop_succ_cons] using h3 k hk
      | none =>
        rw [hs] at ih
        intro i
        cases i with
        | zero => simpa using hfalse
        | succ k => simpa [List.drop_succ_cons] using ih k

/-! ## Claim theorems -/

/-- C1: the claim says the apply workflow never terminates early because of
a single record's failure and always returns the full outcome collection
with outer status 200.  The code violates this: when a success-range
response's body is not JSON, `main` leaves the loop and returns a 500
`InternalError` envelope (the handler at lines 193-194 itself raises
`AttributeError`).  This theorem evaluates the model at such an input: one
valid record, response 200 with an undecodable body. -/
theorem apply_aborts_on_undecodable_success_body :
    mainApply envNoJson200 [recAbc] =
      (get_json_error 500 "InternalError" attrErrStatusCode,
       [putBodyArg (Json.num 2) (Json.num 8)]) ∧
    ((mainApply envNoJson200 [recAbc]).1.statusCode == 200) = false := ⟨rfl, rfl⟩

/-- C2: the claim says that for a 200-204 response the outcome message is
the decoded `message` field, defaulting to a generic success message when
decoding fails or the field is absent, with processing continuing.  The
default-on-absent-field part holds (third conjunct), but on decoding
failure the code aborts the whole invocation instead: with two valid
records and a 204 no-JSON response to the first call, the result is a 500
error envelope and the second record's call is never attempted (only one
body was sent). -/
theorem apply_decode_failure_aborts_not_default :
    mainApply envNoJson204 [recA1, recA2] =
      (get_json_error 500 "InternalError" attrErrStatusCode,
       [putBodyArg (Json.num 1) (Json.num 2)]) ∧
    (mainApply envNoJson204 [recA1, recA2]).2.length = 1 ∧
    mainApply envOkEmptyObj [recA1] =
      (return_json_body [keyedOutcome (Json.str "a1") (Json.str "Scaled successfully") 200] 200,
       [putBodyArg (Json.num 1) (Json.num 2)]) := ⟨rfl, rfl, rfl⟩

/-- C3: the claim says the PUT request body is the JSON object
`\x7bprocessors: cpu, memory: ram\x7d` itself.  The code passes
`json=json.dumps(body)` (line 187), so the value handed to the `json=`
parameter is the *string* encoding of that object, not the object: for a
record with cpu 2 and ram 8 the sent body is the JSON string
`"\x7b\"processors\": 2, \"memory\": 8\x7d"`. -/
theorem put_body_is_string_encoded :
    (mainApply envOkEmptyObj [recAbc]).2 =
      [Json.str "\x7b\"processors\": 2, \"memory\": 8\x7d"] ∧
    isStrB (Json.str "\x7b\"processors\": 2, \"memory\": 8\x7d") = true ∧
    isObjB (Json.str "\x7b\"processors\": 2, \"memory\": 8\x7d") = false ∧
    putBodyArg (Json.num 2) (Json.num 8) =
      Json.str (pyDumps (Json.obj [("processors", Json.num 2), ("memory", Json.num 8)])) :=
  ⟨rfl, rfl, rfl, rfl⟩

/-- C4: for a record with `instance_id`, `cpu` or `ram` falsy, the loop
appends a code-400 outcome and issues no network call; given three records
where the second is missing `ram` (and the two issued calls do not hit the
abort path of C1/C2), exactly 2 bodies are sent and 3 outcomes are
produced in input order, the second being the flat 400 outcome. -/
theorem apply_missing_ram_scenario (env : Nat → CallResult) (d1 d2 d3 : Dict)
    (h1 : (pyTruthy (pyGet d1 "instance_id") && pyTruthy (pyGet d1 "cpu") &&
          pyTruthy (pyGet d1 "ram")) = true)
    (h2 : pyGet d2 "ram" = Json.null)
    (h3 : (pyTruthy (pyGet d3 "instance_id") && pyTruthy (pyGet d3 "cpu") &&
          pyTruthy (pyGet d3 "ram")) = true)
    (hb0 : benignResult (env 0) = true)
    (hb1 : benignResult (env 1) = true) :
    ∃ o1 o3,
      isKeyedOutcomeForB (pyGet d1 "instance_id") o1 = true ∧
      isKeyedOutcomeForB (pyGet d3 "instance_id") o3 = true ∧
      mainApply env [d1, d2, d3] =
        (return_json_body [o1, missingOutcome d2, o3] 200,
         [putBodyArg (pyGet d1 "cpu") (pyGet d1 "ram"),
          putBodyArg (pyGet d3 "cpu") (pyGet d3 "ram")]) ∧
      (mainApply env [d1, d2, d3]).2.length = 2 ∧
      isFlat400B (missingOutcome d2) = true := by
  have h2f : (pyTruthy (pyGet d2 "instance_id") && pyTruthy (pyGet d2 "cpu") &&
      pyTruthy (pyGet d2 "ram")) = false := by
    rw [h2]; simp [pyTruthy]
  obtain ⟨o1, ho1, he1⟩ := applyGo_cons_valid env d1 [d2, d3] [] [] h1 hb0
  obtain ⟨o3, ho3, he3⟩ := applyGo_cons_valid env d3 []
      ([] ++ [putBodyArg (pyGet d1 "cpu") (pyGet d1 "ram")])
      (([] ++ [o1]) ++ [missingOutcome d2]) h3 (by simpa using hb1)
  have hmain : mainApply env [d1, d2, d3] =
      (return_json_body [o1, missingOutcome d2, o3] 200,
       [putBodyArg (pyGet d1 "cpu") (pyGet d1 "ram"),
        putBodyArg (pyGet d3 "cpu") (pyGet d3 "ram")]) := by
    show applyGo env [d1, d2, d3] [] [] = _
    rw [he1, applyGo_cons_invalid env d2 [d3] _ _ h2f, he3]
    rfl
  exact ⟨o1, o3, ho1, ho3, hmain, by rw [hmain]; rfl, missingOutcome_flat d2⟩

/-- Witness for C4 at a concrete input: records `recA1`, `recMissingRam`,
`recA2` and an environment answering 200 with body `\x7b\x7d`. -/
theorem apply_missing_ram_scenario_witness :
    pyGet recMissingRam "ram" = Json.null ∧
    (∃ o1 o3,
      isKeyedOutcomeForB (pyGet recA1 "instance_id") o1 = true ∧
      isKeyedOutcomeForB (pyGet recA2 "instance_id") o3 = true ∧
      mainApply envOkEmptyObj [recA1, recMissingRam, recA2] =
        (return_json_body [o1, missingOutcome recMissingRam, o3] 200,
         [putBodyArg (pyGet recA1 "cpu") (pyGet recA1 "ram"),
          putBodyArg (pyGet recA2 "cpu") (pyGet recA2 "ram")]) ∧
      (mainApply envOkEmptyObj [recA1, recMissingRam, recA2]).2.length = 2 ∧
      isFlat400B (missingOutcome recMissingRam) = true) :=
  ⟨rfl, apply_missing_ram_scenario envOkEmptyObj recA1 recMissingRam recA2 rfl rfl rfl rfl rfl⟩

/-- C5 counterexample: the claim says the pagination drainer, on a pager
with more pages but an absent next page, terminates with the collected
items and does not raise.  The `current-fn` drainer instead raises
`AssertionError` (the `state-fn` drainer at the same pager does return the
collected items). -/
theorem drainer_absent_page_asserts :
    pagerNone.hasNext () = true ∧ (pagerNone.getNext ()).1 = none ∧
    get_paged_results_current pagerNone 5 () = some (Except.error ()) ∧
    get_paged_results_state pagerNone 5 () = [] :=
  ⟨rfl, rfl, rfl, rfl⟩

/-- C5 amended: the `current-state-fn` drainer, at a state with more pages
but an empty or absent next page, stops and contributes no further items
(and by its type cannot raise); the `current-fn` drainer raises
`AssertionError` on an absent page, and on a pager that keeps reporting
more pages while returning empty pages it never terminates (no fuel
suffices); the guarded drainer on a pager with pages `[1, 2]`, `[3]` and
then empty pages returns `[1, 2, 3]`, the items collected so far. -/
theorem get_paged_results_degenerate (σ α : Type) (p : Pager σ α) (s : σ) (fuel : Nat)
    (hmore : p.hasNext s = true)
    (hpage : (p.getNext s).1 = none ∨ (p.getNext s).1 = some []) :
    get_paged_results_state p (fuel + 1) s = [] ∧
    ((p.getNext s).1 = none →
      get_paged_results_current p (fuel + 1) s = some (Except.error ())) ∧
    (∀ k, get_paged_results_current pagerEmpty k () = none) ∧
    get_paged_results_state pagerStuck 10 0 = [1, 2, 3] := by
  refine ⟨?_, ?_, ?_, rfl⟩
  · rcases hp : p.getNext s with ⟨pg, s2⟩
    rw [hp] at hpage
    rcases hpage with h | h <;> simp at h <;> subst h <;>
      simp [get_paged_results_state, hmore, hp]
  · intro hnone
    rcases hp : p.getNext s with ⟨pg, s2⟩
    rw [hp] at hnone
    simp at hnone
    subst hnone
    simp [get_paged_results_current, hmore, hp]
  · intro k
    induction k with
    | zero => rfl
    | succ n ihn =>
      have h1 : pagerEmpty.hasNext () = true := rfl
      have h2 : pagerEmpty.getNext () = (some [], ()) := rfl
      simp only [get_paged_results_current, h1, h2, if_true, ihn]

/-- Witness for C5's amended theorem at the concrete pager `pagerNone`. -/
theorem get_paged_results_degenerate_witness :
    pagerNone.hasNext () = true ∧
    (get_paged_results_state pagerNone (3 + 1) () = [] ∧
     ((pagerNone.getNext ()).1 = none →
       get_paged_results_current pagerNone (3 + 1) () = some (Except.error ())) ∧
     (∀ k, get_paged_results_current pagerEmpty k () = none) ∧
     get_paged_results_state pagerStuck 10 0 = [1, 2, 3]) :=
  ⟨rfl, get_paged_results_degenerate Unit Nat pagerNone () 3 rfl (Or.inl rfl)⟩

/-- C6 counterexample: the claim says entries missing an identifier are
silently skipped without failing the whole batch.  In
`pvs-scale-current-fn` the projection uses bracket access, so an entry
without `pvmInstanceID` raises `KeyError` and the whole batch fails (the
`current-state-fn` projection does skip it). -/
theorem projection_keyerror_counterexample :
    projectionCurrent [entryNoId] = Except.error "pvmInstanceID" ∧
    exceptOkB (projectionCurrent [entryNoId]) = false ∧
    projectionState [entryNoId] = [] :=
  ⟨rfl, rfl, rfl⟩

/-- C6 amended: in `pvs-scale-current-state-fn`, an entry with a falsy
`pvmInstanceID` is skipped and one with a truthy identifier is projected
to a `ResourceRecord`, the batch never failing; in `pvs-scale-current-fn`
an entry lacking the `pvmInstanceID` key makes the whole batch fail with
`KeyError`.  The end-to-end example projects as specified in both
variants. -/
theorem projection_split (inst : Dict) (entries : List Dict) :
    (pyTruthy (pyGet inst "pvmInstanceID") = false →
      projectionState (inst :: entries) = projectionState entries) ∧
    (pyTruthy (pyGet inst "pvmInstanceID") = true →
      projectionState (inst :: entries) = projectRecordState inst :: projectionState entries) ∧
    (inst.find? (fun p => p.1 == "pvmInstanceID") = none →
      projectionCurrent (inst :: entries) = Except.error "pvmInstanceID") ∧
    projectionState [entryAbc] = [recordAbc] ∧
    projectionCurrent [entryAbc] = Except.ok [recordAbc] := by
  refine ⟨?_, ?_, ?_, rfl, rfl⟩
  · intro h; simp [projectionState, h]
  · intro h; simp [projectionState, h]
  · intro h
    simp [projectionCurrent, projectRecordCurrent, pyIndex, h, Bind.bind, Except.bind]

/-- C7: when a config map named `pvs-scale-up-config` is among the drained
config maps, the publish step performs exactly a get followed by one
replace whose `if_match` is the `entity_tag` of the dict that get
returned; when none is, it performs exactly a create and no replace. -/
theorem publish_trace (maps : List Dict) (fetched : Dict) (payload : String) :
    ((maps.find? isScaleUpName).isSome = true →
      publishConfigMap maps fetched payload =
        [StoreOp.get "pvs-scale-up-config",
         StoreOp.replace "pvs-scale-up-config" (pyGet fetched "entity_tag")
           [("pvs_scale_config", payload)]] ∧
      (publishConfigMap maps fetched payload).countP isReplaceOp = 1) ∧
    ((maps.find? isScaleUpName).isSome = false →
      publishConfigMap maps fetched payload =
        [StoreOp.create "pvs-scale-up-config" [("pvs_scale_config", payload)]] ∧
      (publishConfigMap maps fetched payload).countP isReplaceOp = 0) := by
  constructor <;> intro h <;>
    simp [publishConfigMap, h, List.countP_cons, isReplaceOp]

/-- C8: extraction from an empty CRN fails with the `ValueError`
(`InvalidInput`); a non-empty CRN never raises: the result is `Except.ok`
of the leftmost UUID-shaped (8-4-4-4-12 case-insensitive hexadecimal)
substring when one exists, and of `none` when no position of the input
matches the pattern. -/
theorem crn_extraction (s : String) (h : s.isEmpty = false) :
    get_service_instance_from_crn "" = Except.error "The CRN is required" ∧
    get_service_instance_from_crn s = Except.ok ((searchUUID s.data).map String.mk) ∧
    crnResultSpec s ((searchUUID s.data).map String.mk) := by
  refine ⟨rfl, ?_, ?_⟩
  · rw [get_service_instance_from_crn, if_neg (by simp [h])]
  · have hs := searchUUID_correct s.data
    cases hsu : searchUUID s.data with
    | none =>
      rw [hsu] at hs
      intro i
      exact hs i
    | some u =>
      rw [hsu] at hs
      obtain ⟨i, h1, h2, h3⟩ := hs
      exact ⟨i, h1, congrArg String.mk h2, h3⟩

/-- Witness for C8 at a concrete CRN-shaped string containing one UUID. -/
theorem crn_extraction_witness :
    ("crn-0f109053-87bf-4021-b371-3f48337dd343" : String).isEmpty = false ∧
    (get_service_instance_from_crn "" = Except.error "The CRN is required" ∧
     get_service_instance_from_crn "crn-0f109053-87bf-4021-b371-3f48337dd343" =
       Except.ok ((searchUUID ("crn-0f109053-87bf-4021-b371-3f48337dd343" : String).data).map
         String.mk) ∧
     crnResultSpec "crn-0f109053-87bf-4021-b371-3f48337dd343"
       ((searchUUID ("crn-0f109053-87bf-4021-b371-3f48337dd343" : String).data).map
         String.mk)) :=
  ⟨rfl, crn_extraction "crn-0f109053-87bf-4021-b371-3f48337dd343" rfl⟩

/-- C9 counterexample: the claim says every outcome entry, including the
code-400 ones, is keyed by the record's `instance_id`.  For a record with
only an `instance_id` the produced outcome is the flat dict
`\x7binstance_id, message, code\x7d`, which is not keyed by `"x"`. -/
theorem flat_outcome_counterexample :
    mainApply envExn [recOnlyId] =
      (return_json_body
        [Json.obj [("instance_id", Json.str "x"),
                   ("message", Json.str "Missing instance_id, cpu, or ram"),
                   ("code", Json.num 400)]] 200, []) ∧
    isKeyedOutcomeForB (Json.str "x")
      (Json.obj [("instance_id", Json.str "x"),
                 ("message", Json.str "Missing instance_id, cpu, or ram"),
                 ("code", Json.num 400)]) = false ∧
    isKeyedAnyB
      (Json.obj [("instance_id", Json.str "x"),
                 ("message", Json.str "Missing instance_id, cpu, or ram"),
                 ("code", Json.num 400)]) = false :=
  ⟨rfl, rfl, rfl⟩

/-- C9 amended: every outcome entry of a success payload is either keyed
by an identifier with value `\x7bmessage, code\x7d` (the outcomes of records
that reach the network call) or the flat `\x7binstance_id, message,
code: 400\x7d` object (the outcomes of records with a falsy field). -/
theorem applyOutcome_shapes (env : Nat → CallResult) (config : List Dict) (out : List Json)
    (h : (mainApply env config).1.body = EnvBody.ret out) :
    (∀ j ∈ out, (isKeyedAnyB j || isFlat400B j) = true) ∧
    (∀ inst : Dict, isFlat400B (missingOutcome inst) = true) ∧
    (∀ pid message : Json, ∀ code : Int, isKeyedAnyB (keyedOutcome pid message code) = true) :=
  ⟨applyGo_shapes_aux env config [] [] out (by simp) h,
   missingOutcome_flat, keyedOutcome_any⟩

/-- Witness for C9's amended theorem: a config with one flat 400 outcome
and one keyed outcome. -/
theorem applyOutcome_shapes_witness :
    (mainApply envExn [recOnlyId, recA1]).1.body =
      EnvBody.ret [missingOutcome recOnlyId,
                   keyedOutcome (Json.str "a1") (Json.str "boom") 500] ∧
    ((∀ j ∈ [missingOutcome recOnlyId,
             keyedOutcome (Json.str "a1") (Json.str "boom") 500],
        (isKeyedAnyB j || isFlat400B j) = true) ∧
     (∀ inst : Dict, isFlat400B (missingOutcome inst) = true) ∧
     (∀ pid message : Json, ∀ code : Int,
        isKeyedAnyB (keyedOutcome pid message code) = true)) :=
  ⟨rfl, applyOutcome_shapes envExn [recOnlyId, recA1]
    [missingOutcome recOnlyId, keyedOutcome (Json.str "a1") (Json.str "boom") 500] rfl⟩

/-- C10: a record whose `cpu` or `ram` is present but zero, or whose
`instance_id` is present but the empty string, is handled exactly like a
record with the field missing: the flat code-400 outcome is appended, no
body is sent, and the loop continues with the remaining records. -/
theorem zero_or_empty_field_treated_as_missing (env : Nat → CallResult) (inst : Dict)
    (rest : List Dict) (sent out : List Json)
    (h : pyGet inst "cpu" = Json.num 0 ∨ pyGet inst "ram" = Json.num 0 ∨
         pyGet inst "instance_id" = Json.str "") :
    applyGo env (inst :: rest) sent out = applyGo env rest sent (out ++ [missingOutcome inst]) ∧
    isFlat400B (missingOutcome inst) = true := by
  refine ⟨applyGo_cons_invalid env inst rest sent out ?_, missingOutcome_flat inst⟩
  rcases h with h | h | h <;> simp [h, pyTruthy]

/-- Witness for C10 at a record whose `cpu` is zero. -/
theorem zero_or_empty_field_treated_as_missing_witness :
    (pyGet recZeroCpu "cpu" = Json.num 0 ∨ pyGet recZeroCpu "ram" = Json.num 0 ∨
     pyGet recZeroCpu "instance_id" = Json.str "") ∧
    (applyGo envExn [recZeroCpu] [] [] =
       applyGo envExn [] [] ([] ++ [missingOutcome recZeroCpu]) ∧
     isFlat400B (missingOutcome recZeroCpu) = true) :=
  ⟨Or.inl rfl,
   zero_or_empty_field_treated_as_missing envExn recZeroCpu [] [] [] (Or.inl rfl)⟩

end PvsScaler
